import Mathlib

/-!
Verification of the 6502 CPU core in src/cpu.rs of the nes_emulator
repository.  The Rust code is shallowly embedded: machine integers are
Nat with explicit reduction modulo 2^8 / 2^16 where the source wraps,
and operations that can panic in Rust (array indexing out of bounds,
overflow of a plain + under debug-mode overflow checks, and the
todo! arm of the opcode dispatch) are modelled in an Except monad
whose error value records the panic kind.  The memory array of the
source is declared [u8; 0xffff], i.e. 65535 cells; the embedding keeps
that bound faithfully.
-/

namespace Nes

/-- Kinds of Rust panic the source can raise. -/
inductive PanicKind where
  | indexOutOfBounds
  | addOverflow
  | invalidMode
  | todoUnimplemented
  deriving DecidableEq

/-- Result monad of the embedding: a value or a panic. -/
abbrev M (α : Type) : Type := Except PanicKind α

/-- AddressingMode enum of src/cpu.rs. -/
inductive AddressingMode where
  | Implied
  | Accumulator
  | Immediate
  | ZeroPage
  | ZeroPage_X
  | ZeroPage_Y
  | Relative
  | Absolute
  | Absolute_X
  | Absolute_Y
  | Indirect
  | Indirect_X
  | Indirect_Y
  | NoneAddressing
  deriving DecidableEq

/-- The CPU struct of src/cpu.rs.  Registers are u8 (kept below 256 by
every operation of the source), the program counter is u16, and the
memory field is the array [u8; 0xffff] represented as a function on
addresses. -/
structure CPU where
  register_a : Nat
  register_x : Nat
  register_y : Nat
  status : Nat
  program_counter : Nat
  stack_pointer : Nat
  memory : Nat → Nat

/-- mem_read: self.memory[addr as usize].  The array has 0xffff cells,
so indices of 0xffff and above panic. -/
def memRead (s : CPU) (addr : Nat) : M Nat :=
  if addr < 0xffff then Except.ok (s.memory addr)
  else Except.error PanicKind.indexOutOfBounds

/-- mem_write: self.memory[addr as usize] = data, same 0xffff bound. -/
def memWrite (s : CPU) (addr data : Nat) : M CPU :=
  if addr < 0xffff then
    Except.ok { s with memory := fun a => if a = addr then data else s.memory a }
  else Except.error PanicKind.indexOutOfBounds

/-- A plain + on u16 under debug-mode overflow checks: panics when the
mathematical sum does not fit in 16 bits. -/
def addU16 (x y : Nat) : M Nat :=
  if x + y < 0x10000 then Except.ok (x + y)
  else Except.error PanicKind.addOverflow

/-- A plain + on u8 under debug-mode overflow checks. -/
def addU8 (x y : Nat) : M Nat :=
  if x + y < 256 then Except.ok (x + y)
  else Except.error PanicKind.addOverflow

/-- mem_read_u16: lo = read(pos), hi = read(pos + 1), little endian. -/
def memReadU16 (s : CPU) (pos : Nat) : M Nat := do
  let lo ← memRead s pos
  let p1 ← addU16 pos 1
  let hi ← memRead s p1
  Except.ok ((hi <<< 8) ||| lo)

/-- mem_write_u16: write lo at pos, hi at pos + 1.  The hi byte is the
u8 truncation of data >> 8. -/
def memWriteU16 (s : CPU) (pos data : Nat) : M CPU := do
  let hi := (data >>> 8) % 256
  let lo := data &&& 0xff
  let s₁ ← memWrite s pos lo
  let p1 ← addU16 pos 1
  memWrite s₁ p1 hi

/-- stack_pop: increment SP with u8 wrap, then read 0x0100 + SP.
Returns the popped byte together with the new state. -/
def stackPop (s : CPU) : M (Nat × CPU) := do
  let sp := (s.stack_pointer + 1) % 256
  let s₁ : CPU := { s with stack_pointer := sp }
  let v ← memRead s₁ (0x100 + sp)
  Except.ok (v, s₁)

/-- stack_push: write data at 0x0100 + SP, then decrement SP with u8
wrap (wrapping_sub 1 = + 255 mod 256 on byte values). -/
def stackPush (s : CPU) (data : Nat) : M CPU := do
  let s₁ ← memWrite s (0x100 + s.stack_pointer) data
  Except.ok { s₁ with stack_pointer := (s₁.stack_pointer + 255) % 256 }

/-- stack_pop_u16: lo first, then hi. -/
def stackPopU16 (s : CPU) : M (Nat × CPU) := do
  let (lo, s₁) ← stackPop s
  let (hi, s₂) ← stackPop s₁
  Except.ok ((hi <<< 8) ||| lo, s₂)

/-- stack_push_u16: hi first, then lo. -/
def stackPushU16 (s : CPU) (data : Nat) : M CPU := do
  let hi := (data >>> 8) % 256
  let lo := data &&& 0xff
  let s₁ ← stackPush s hi
  stackPush s₁ lo

/-- Value of (b as i8) as u16 for a byte b: sign extension of bit 7. -/
def signExtend (b : Nat) : Nat :=
  if b % 256 < 128 then b % 256 else 0xff00 + b % 256

/-- get_operand_address of src/cpu.rs.  Implied, Accumulator and
NoneAddressing panic in the source. -/
def getOperandAddress (s : CPU) (mode : AddressingMode) : M Nat :=
  match mode with
  | AddressingMode.Implied => Except.error PanicKind.invalidMode
  | AddressingMode.Accumulator => Except.error PanicKind.invalidMode
  | AddressingMode.Immediate => Except.ok s.program_counter
  | AddressingMode.ZeroPage => memRead s s.program_counter
  | AddressingMode.ZeroPage_X => do
      let pos ← memRead s s.program_counter
      Except.ok ((pos + s.register_x) % 256)
  | AddressingMode.ZeroPage_Y => do
      let pos ← memRead s s.program_counter
      Except.ok ((pos + s.register_y) % 256)
  | AddressingMode.Relative => do
      let base ← memRead s s.program_counter
      let p1 ← addU16 s.program_counter 1
      Except.ok ((signExtend base + p1) % 0x10000)
  | AddressingMode.Absolute => memReadU16 s s.program_counter
  | AddressingMode.Absolute_X => do
      let base ← memReadU16 s s.program_counter
      Except.ok ((base + s.register_x) % 0x10000)
  | AddressingMode.Absolute_Y => do
      let base ← memReadU16 s s.program_counter
      Except.ok ((base + s.register_y) % 0x10000)
  | AddressingMode.Indirect => do
      let base ← memReadU16 s s.program_counter
      memReadU16 s base
  | AddressingMode.Indirect_X => do
      let base ← memRead s s.program_counter
      memReadU16 s ((base + s.register_x) % 256)
  | AddressingMode.Indirect_Y => do
      let base ← memRead s s.program_counter
      let derefBase ← memReadU16 s base
      Except.ok ((derefBase + s.register_y) % 0x10000)
  | AddressingMode.NoneAddressing => Except.error PanicKind.invalidMode

/-- First if-block of update_zero_and_negative_flags: set or clear Z. -/
def setZeroFlag (s : CPU) (result : Nat) : CPU :=
  if result = 0 then { s with status := s.status ||| 0b10 }
  else { s with status := s.status &&& 0xfd }

/-- Second if-block of update_zero_and_negative_flags: set or clear N
from bit 7 of the result. -/
def setNegativeFlag (s : CPU) (result : Nat) : CPU :=
  if result &&& 0b10000000 ≠ 0 then { s with status := s.status ||| 0b10000000 }
  else { s with status := s.status &&& 0x7f }

/-- update_zero_and_negative_flags of src/cpu.rs. -/
def updateZeroAndNegativeFlags (s : CPU) (result : Nat) : CPU :=
  setNegativeFlag (setZeroFlag s result) result

/-- The repeated carry-flag if-block of the source: set or clear C. -/
def setCarryFlag (s : CPU) (c : Bool) : CPU :=
  if c then { s with status := s.status ||| 0b1 }
  else { s with status := s.status &&& 0xfe }

/-- The overflow-flag if-block of the source: set or clear V. -/
def setOverflowFlag (s : CPU) (v : Bool) : CPU :=
  if v then { s with status := s.status ||| 0b1000000 }
  else { s with status := s.status &&& 0xbf }

/-- set_register_a of src/cpu.rs. -/
def setRegisterA (s : CPU) (value : Nat) : CPU :=
  let s₁ : CPU := { s with register_a := value }
  updateZeroAndNegativeFlags s₁ s₁.register_a

/-- add_to_register_a of src/cpu.rs.  The source computes
value + carry with a plain u8 +, then register_a.overflowing_add of
that sum; the overflow flag compares the sign bits of the original
operand and the result. -/
def addToRegisterA (s : CPU) (value : Nat) : M CPU := do
  let carry := s.status &&& 0b1
  let vc ← addU8 value carry
  let result := (s.register_a + vc) % 256
  let carryFlag := decide (256 ≤ s.register_a + vc)
  let overflowFlag := decide (s.register_a &&& 0b10000000 = value &&& 0b10000000 ∧
    value &&& 0b10000000 ≠ result &&& 0b10000000)
  Except.ok (setRegisterA (setOverflowFlag (setCarryFlag s carryFlag) overflowFlag) result)

/-- branch of src/cpu.rs: on a true condition, set PC to the Relative
effective address. -/
def branch (s : CPU) (condition : Bool) : M CPU :=
  if condition then do
    let addr ← getOperandAddress s AddressingMode.Relative
    Except.ok { s with program_counter := addr }
  else Except.ok s

/-- compare of src/cpu.rs: flags from target - memory operand. -/
def compare (s : CPU) (mode : AddressingMode) (target : Nat) : M CPU := do
  let addr ← getOperandAddress s mode
  let value ← memRead s addr
  let result := (target + (256 - value % 256)) % 256
  let carryFlag := decide (value ≤ target)
  Except.ok (updateZeroAndNegativeFlags (setCarryFlag s carryFlag) result)

def adc (s : CPU) (mode : AddressingMode) : M CPU := do
  let addr ← getOperandAddress s mode
  let value ← memRead s addr
  addToRegisterA s value

def and (s : CPU) (mode : AddressingMode) : M CPU := do
  let addr ← getOperandAddress s mode
  let value ← memRead s addr
  Except.ok (setRegisterA s (s.register_a &&& value))

def asl (s : CPU) (mode : AddressingMode) : M CPU := do
  let (s₁, result, carryFlag) ←
    (if mode = AddressingMode.Accumulator then
      let result := s.register_a * 2 % 256
      Except.ok ({ s with register_a := result }, result, decide (256 ≤ s.register_a * 2))
    else do
      let addr ← getOperandAddress s mode
      let value ← memRead s addr
      let result := value * 2 % 256
      let s₂ ← memWrite s addr result
      Except.ok (s₂, result, decide (256 ≤ value * 2)) : M (CPU × Nat × Bool))
  Except.ok (updateZeroAndNegativeFlags (setCarryFlag s₁ carryFlag) result)

def bcc (s : CPU) (_mode : AddressingMode) : M CPU :=
  branch s (s.status &&& 0b1 != 0b1)

def bcs (s : CPU) (_mode : AddressingMode) : M CPU :=
  branch s (s.status &&& 0b1 == 0b1)

def beq (s : CPU) (_mode : AddressingMode) : M CPU :=
  branch s (s.status &&& 0b10 == 0b10)

def bit (s : CPU) (mode : AddressingMode) : M CPU := do
  let addr ← getOperandAddress s mode
  let value ← memRead s addr
  let result := s.register_a &&& value
  Except.ok (setOverflowFlag (setNegativeFlag (setZeroFlag s result) value)
    (decide (value &&& 0b1000000 ≠ 0)))

def bmi (s : CPU) (_mode : AddressingMode) : M CPU :=
  branch s (s.status &&& 0b10000000 == 0b10000000)

def bne (s : CPU) (_mode : AddressingMode) : M CPU :=
  branch s (s.status &&& 0b10 != 0b10)

def bpl (s : CPU) (_mode : AddressingMode) : M CPU :=
  branch s (s.status &&& 0b10000000 != 0b10000000)

def bvc (s : CPU) (_mode : AddressingMode) : M CPU :=
  branch s (s.status &&& 0b1000000 != 0b1000000)

def bvs (s : CPU) (_mode : AddressingMode) : M CPU :=
  branch s (s.status &&& 0b1000000 == 0b1000000)

def clc (s : CPU) (_mode : AddressingMode) : CPU :=
  { s with status := s.status &&& 0xfe }

def cld (s : CPU) (_mode : AddressingMode) : CPU :=
  { s with status := s.status &&& 0xf7 }

def cli (s : CPU) (_mode : AddressingMode) : CPU :=
  { s with status := s.status &&& 0xfb }

def clv (s : CPU) (_mode : AddressingMode) : CPU :=
  { s with status := s.status &&& 0xbf }

def cmp (s : CPU) (mode : AddressingMode) : M CPU :=
  compare s mode s.register_a

def cpx (s : CPU) (mode : AddressingMode) : M CPU :=
  compare s mode s.register_x

def cpy (s : CPU) (mode : AddressingMode) : M CPU :=
  compare s mode s.register_y

def dec (s : CPU) (mode : AddressingMode) : M CPU := do
  let addr ← getOperandAddress s mode
  let value ← memRead s addr
  let result := (value + 255) % 256
  let s₁ ← memWrite s addr result
  Except.ok (updateZeroAndNegativeFlags s₁ result)

def dex (s : CPU) (_mode : AddressingMode) : CPU :=
  let x := (s.register_x + 255) % 256
  updateZeroAndNegativeFlags { s with register_x := x } x

def dey (s : CPU) (_mode : AddressingMode) : CPU :=
  let y := (s.register_y + 255) % 256
  updateZeroAndNegativeFlags { s with register_y := y } y

def eor (s : CPU) (mode : AddressingMode) : M CPU := do
  let addr ← getOperandAddress s mode
  let value ← memRead s addr
  Except.ok (setRegisterA s (s.register_a ^^^ value))

def inc (s : CPU) (mode : AddressingMode) : M CPU := do
  let addr ← getOperandAddress s mode
  let value ← memRead s addr
  let result := (value + 1) % 256
  let s₁ ← memWrite s addr result
  Except.ok (updateZeroAndNegativeFlags s₁ result)

def inx (s : CPU) (_mode : AddressingMode) : CPU :=
  let x := (s.register_x + 1) % 256
  updateZeroAndNegativeFlags { s with register_x := x } x

def iny (s : CPU) (_mode : AddressingMode) : CPU :=
  let y := (s.register_y + 1) % 256
  updateZeroAndNegativeFlags { s with register_y := y } y

def jmp (s : CPU) (mode : AddressingMode) : M CPU := do
  let addr ← getOperandAddress s mode
  Except.ok { s with program_counter := addr }

/-- jsr of src/cpu.rs: push program_counter + 2 - 1 (a plain u16 +),
then jump to the Absolute operand. -/
def jsr (s : CPU) (mode : AddressingMode) : M CPU := do
  let addr ← getOperandAddress s mode
  let t ← addU16 s.program_counter 2
  let s₁ ← stackPushU16 s (t - 1)
  Except.ok { s₁ with program_counter := addr }

def lda (s : CPU) (mode : AddressingMode) : M CPU := do
  let addr ← getOperandAddress s mode
  let value ← memRead s addr
  Except.ok (updateZeroAndNegativeFlags { s with register_a := value } value)

def ldx (s : CPU) (mode : AddressingMode) : M CPU := do
  let addr ← getOperandAddress s mode
  let value ← memRead s addr
  Except.ok (updateZeroAndNegativeFlags { s with register_x := value } value)

def ldy (s : CPU) (mode : AddressingMode) : M CPU := do
  let addr ← getOperandAddress s mode
  let value ← memRead s addr
  Except.ok (updateZeroAndNegativeFlags { s with register_y := value } value)

def lsr (s : CPU) (mode : AddressingMode) : M CPU := do
  let (s₁, result, carryFlag) ←
    (if mode = AddressingMode.Accumulator then
      let result := s.register_a / 2
      Except.ok ({ s with register_a := result }, result,
        decide (s.register_a &&& 0b1 = 0b1))
    else do
      let addr ← getOperandAddress s mode
      let value ← memRead s addr
      let result := value / 2
      let s₂ ← memWrite s addr result
      Except.ok (s₂, result, decide (value &&& 0b1 = 0b1)) : M (CPU × Nat × Bool))
  Except.ok (updateZeroAndNegativeFlags (setCarryFlag s₁ carryFlag) result)

def nop (s : CPU) (_mode : AddressingMode) : CPU :=
  s

def ora (s : CPU) (mode : AddressingMode) : M CPU := do
  let addr ← getOperandAddress s mode
  let value ← memRead s addr
  Except.ok (setRegisterA s (s.register_a ||| value))

def pha (s : CPU) (_mode : AddressingMode) : M CPU :=
  stackPush s s.register_a

def php (s : CPU) (_mode : AddressingMode) : M CPU :=
  stackPush s ((s.status ||| 0b10000) ||| 0b100000)

def pla (s : CPU) (_mode : AddressingMode) : M CPU := do
  let (value, s₁) ← stackPop s
  Except.ok (setRegisterA s₁ value)

def plp (s : CPU) (_mode : AddressingMode) : M CPU := do
  let (value, s₁) ← stackPop s
  Except.ok { s₁ with status := (value &&& 0xef) ||| 0b100000 }

def rol (s : CPU) (mode : AddressingMode) : M CPU := do
  let (s₁, result, carryFlag) ←
    (if mode = AddressingMode.Accumulator then
      let result := s.register_a * 2 % 256 ||| (s.status &&& 0b1)
      Except.ok ({ s with register_a := result }, result,
        decide (256 ≤ s.register_a * 2))
    else do
      let addr ← getOperandAddress s mode
      let value ← memRead s addr
      let result := value * 2 % 256 ||| (s.status &&& 0b1)
      let s₂ ← memWrite s addr result
      Except.ok (s₂, result, decide (256 ≤ value * 2)) : M (CPU × Nat × Bool))
  Except.ok (updateZeroAndNegativeFlags (setCarryFlag s₁ carryFlag) result)

def ror (s : CPU) (mode : AddressingMode) : M CPU := do
  let (s₁, result, carryFlag) ←
    (if mode = AddressingMode.Accumulator then
      let result := s.register_a / 2 ||| ((s.status &&& 0b1) <<< 7)
      Except.ok ({ s with register_a := result }, result,
        decide (s.register_a &&& 0b1 = 0b1))
    else do
      let addr ← getOperandAddress s mode
      let value ← memRead s addr
      let result := value / 2 ||| ((s.status &&& 0b1) <<< 7)
      let s₂ ← memWrite s addr result
      Except.ok (s₂, result, decide (value &&& 0b1 = 0b1)) : M (CPU × Nat × Bool))
  Except.ok (updateZeroAndNegativeFlags (setCarryFlag s₁ carryFlag) result)

def rti (s : CPU) (_mode : AddressingMode) : M CPU := do
  let (value, s₁) ← stackPop s
  let s₂ : CPU := { s₁ with status := (value &&& 0xef) ||| 0b100000 }
  let (pc, s₃) ← stackPopU16 s₂
  Except.ok { s₃ with program_counter := pc }

/-- rts of src/cpu.rs: the popped value + 1 is a plain u16 +. -/
def rts (s : CPU) (_mode : AddressingMode) : M CPU := do
  let (v, s₁) ← stackPopU16 s
  let pc ← addU16 v 1
  Except.ok { s₁ with program_counter := pc }

/-- sbc of src/cpu.rs: add_to_register_a of
value.wrapping_neg().wrapping_sub(1). -/
def sbc (s : CPU) (mode : AddressingMode) : M CPU := do
  let addr ← getOperandAddress s mode
  let value ← memRead s addr
  addToRegisterA s (((256 - value % 256) % 256 + 255) % 256)

def sec (s : CPU) (_mode : AddressingMode) : CPU :=
  { s with status := s.status ||| 0b1 }

def sed (s : CPU) (_mode : AddressingMode) : CPU :=
  { s with status := s.status ||| 0b1000 }

def sei (s : CPU) (_mode : AddressingMode) : CPU :=
  { s with status := s.status ||| 0b100 }

def sta (s : CPU) (mode : AddressingMode) : M CPU := do
  let addr ← getOperandAddress s mode
  memWrite s addr s.register_a

def stx (s : CPU) (mode : AddressingMode) : M CPU := do
  let addr ← getOperandAddress s mode
  memWrite s addr s.register_x

def sty (s : CPU) (mode : AddressingMode) : M CPU := do
  let addr ← getOperandAddress s mode
  memWrite s addr s.register_y

def tax (s : CPU) : CPU :=
  updateZeroAndNegativeFlags { s with register_x := s.register_a } s.register_a

/-- load of src/cpu.rs: copy the program into
memory[0x8000 .. 0x8000 + len] (the slice operation panics when the
range does not fit into the 0xffff-cell array), then write 0x8000 to
the reset vector at 0xfffc. -/
def load (s : CPU) (program : List Nat) : M CPU := do
  let s₁ ←
    (if 0x8000 + program.length ≤ 0xffff then
      Except.ok { s with memory := (fun a =>
        if 0x8000 ≤ a ∧ a < 0x8000 + program.length then program.getD (a - 0x8000) 0
        else s.memory a) }
    else Except.error PanicKind.indexOutOfBounds : M CPU)
  memWriteU16 s₁ 0xfffc 0x8000

/-- reset of src/cpu.rs: zero A, X, Y, P and load PC from 0xFFFC. -/
def reset (s : CPU) : M CPU := do
  let pc ← memReadU16 s 0xfffc
  Except.ok { s with register_a := 0, register_x := 0, register_y := 0,
                     status := 0, program_counter := pc }

/-- Outcome of one iteration of the run loop. -/
inductive StepOut where
  | next (s : CPU)
  | halt (s : CPU)
  | panic (k : PanicKind)

/-- A dispatch arm that afterwards advances PC by n with a plain u16 +
(the `self.program_counter += n` following the handler call). -/
def advOut (n : Nat) (r : M CPU) : StepOut :=
  match r with
  | Except.error k => StepOut.panic k
  | Except.ok s =>
    match addU16 s.program_counter n with
    | Except.error k => StepOut.panic k
    | Except.ok pc => StepOut.next { s with program_counter := pc }

/-- A dispatch arm with no PC advance after the handler. -/
def plainOut (r : M CPU) : StepOut :=
  match r with
  | Except.error k => StepOut.panic k
  | Except.ok s => StepOut.next s

/-- The match arms of the run loop of src/cpu.rs, in source order:
opcode byte paired with the handler call and its following PC
advance.  The arm for 0x00 (BRK) returns from the loop. -/
def opHandlers : List (Nat × (CPU → StepOut)) := [
  (0x69, fun s => advOut 1 (adc s AddressingMode.Immediate)),
  (0x29, fun s => advOut 1 (Nes.and s AddressingMode.Immediate)),
  (0x0A, fun s => plainOut (asl s AddressingMode.Accumulator)),
  (0x06, fun s => advOut 1 (asl s AddressingMode.ZeroPage)),
  (0x90, fun s => advOut 1 (bcc s AddressingMode.Relative)),
  (0xB0, fun s => advOut 1 (bcs s AddressingMode.Relative)),
  (0xF0, fun s => advOut 1 (beq s AddressingMode.Relative)),
  (0x24, fun s => advOut 1 (bit s AddressingMode.ZeroPage)),
  (0x30, fun s => advOut 1 (bmi s AddressingMode.Relative)),
  (0xD0, fun s => advOut 1 (bne s AddressingMode.Relative)),
  (0x10, fun s => advOut 1 (bpl s AddressingMode.Relative)),
  (0x00, fun s => StepOut.halt s),
  (0x50, fun s => advOut 1 (bvc s AddressingMode.Relative)),
  (0x70, fun s => advOut 1 (bvs s AddressingMode.Relative)),
  (0x18, fun s => StepOut.next (clc s AddressingMode.Implied)),
  (0xD8, fun s => StepOut.next (cld s AddressingMode.Implied)),
  (0x58, fun s => StepOut.next (cli s AddressingMode.Implied)),
  (0xB8, fun s => StepOut.next (clv s AddressingMode.Implied)),
  (0xC9, fun s => advOut 1 (cmp s AddressingMode.Immediate)),
  (0xE0, fun s => advOut 1 (cpx s AddressingMode.Immediate)),
  (0xC0, fun s => advOut 1 (cpy s AddressingMode.Immediate)),
  (0xC6, fun s => advOut 1 (dec s AddressingMode.ZeroPage)),
  (0xCA, fun s => StepOut.next (dex s AddressingMode.Implied)),
  (0x88, fun s => StepOut.next (dey s AddressingMode.Implied)),
  (0x49, fun s => advOut 1 (eor s AddressingMode.Immediate)),
  (0xE6, fun s => advOut 1 (inc s AddressingMode.ZeroPage)),
  (0xE8, fun s => StepOut.next (inx s AddressingMode.Implied)),
  (0xC8, fun s => StepOut.next (iny s AddressingMode.Implied)),
  (0x4C, fun s => plainOut (jmp s AddressingMode.Absolute)),
  (0x6C, fun s => plainOut (jmp s AddressingMode.Indirect)),
  (0x20, fun s => advOut 2 (jsr s AddressingMode.Absolute)),
  (0xA9, fun s => advOut 1 (lda s AddressingMode.Immediate)),
  (0xA5, fun s => advOut 1 (lda s AddressingMode.ZeroPage)),
  (0xB5, fun s => advOut 1 (lda s AddressingMode.ZeroPage_X)),
  (0xAD, fun s => advOut 2 (lda s AddressingMode.Absolute)),
  (0xBD, fun s => advOut 2 (lda s AddressingMode.Absolute_X)),
  (0xB9, fun s => advOut 2 (lda s AddressingMode.Absolute_Y)),
  (0xA1, fun s => advOut 1 (lda s AddressingMode.Indirect_X)),
  (0xB1, fun s => advOut 1 (lda s AddressingMode.Indirect_Y)),
  (0xA2, fun s => advOut 1 (ldx s AddressingMode.Immediate)),
  (0xA0, fun s => advOut 1 (ldy s AddressingMode.Immediate)),
  (0x4A, fun s => plainOut (lsr s AddressingMode.Accumulator)),
  (0x46, fun s => advOut 1 (lsr s AddressingMode.ZeroPage)),
  (0xEA, fun s => StepOut.next (nop s AddressingMode.Implied)),
  (0x09, fun s => advOut 1 (ora s AddressingMode.Immediate)),
  (0x48, fun s => plainOut (pha s AddressingMode.Implied)),
  (0x08, fun s => plainOut (php s AddressingMode.Implied)),
  (0x68, fun s => plainOut (pla s AddressingMode.Implied)),
  (0x28, fun s => plainOut (plp s AddressingMode.Implied)),
  (0x2A, fun s => plainOut (rol s AddressingMode.Accumulator)),
  (0x26, fun s => advOut 1 (rol s AddressingMode.ZeroPage)),
  (0x6A, fun s => plainOut (ror s AddressingMode.Accumulator)),
  (0x66, fun s => advOut 1 (ror s AddressingMode.ZeroPage)),
  (0x40, fun s => plainOut (rti s AddressingMode.Implied)),
  (0x60, fun s => plainOut (rts s AddressingMode.Implied)),
  (0xE9, fun s => advOut 1 (sbc s AddressingMode.Immediate)),
  (0x38, fun s => StepOut.next (sec s AddressingMode.Implied)),
  (0xF8, fun s => StepOut.next (sed s AddressingMode.Implied)),
  (0x78, fun s => StepOut.next (sei s AddressingMode.Implied)),
  (0x85, fun s => advOut 1 (sta s AddressingMode.ZeroPage)),
  (0x95, fun s => advOut 1 (sta s AddressingMode.ZeroPage_X)),
  (0x8D, fun s => advOut 2 (sta s AddressingMode.Absolute)),
  (0x9D, fun s => advOut 2 (sta s AddressingMode.Absolute_X)),
  (0x99, fun s => advOut 2 (sta s AddressingMode.Absolute_Y)),
  (0x81, fun s => advOut 1 (sta s AddressingMode.Indirect_X)),
  (0x91, fun s => advOut 1 (sta s AddressingMode.Indirect_Y)),
  (0x86, fun s => advOut 1 (stx s AddressingMode.ZeroPage)),
  (0x84, fun s => advOut 1 (sty s AddressingMode.ZeroPage)),
  (0xAA, fun s => StepOut.next (tax s))]

/-- One iteration of the run loop: fetch the opcode at PC, advance PC
by 1 (a plain u16 +), then dispatch on the opcode.  An opcode with no
match arm hits the todo! default arm, which panics. -/
def step (s : CPU) : StepOut :=
  match memRead s s.program_counter, addU16 s.program_counter 1 with
  | Except.error k, _ => StepOut.panic k
  | Except.ok _, Except.error k => StepOut.panic k
  | Except.ok opcode, Except.ok pc1 =>
    match opHandlers.find? (fun p => p.1 == opcode) with
    | some p => p.2 { s with program_counter := pc1 }
    | none => StepOut.panic PanicKind.todoUnimplemented

/-- Outcome of the run loop under a fuel bound. -/
inductive RunOut where
  | done (s : CPU)
  | panic (k : PanicKind)
  | fuelOut

/-- The run loop of src/cpu.rs, bounded by fuel. -/
def runW : Nat → CPU → RunOut
  | 0, _ => RunOut.fuelOut
  | n + 1, s =>
    match step s with
    | StepOut.next s₁ => runW n s₁
    | StepOut.halt s₁ => RunOut.done s₁
    | StepOut.panic k => RunOut.panic k

/-- Program counter of a step outcome, when the step did not panic. -/
def outPC : StepOut → Option Nat
  | StepOut.next s => some s.program_counter
  | StepOut.halt s => some s.program_counter
  | StepOut.panic _ => none

/-- Stack pointer of a step outcome, when the step did not panic. -/
def outSP : StepOut → Option Nat
  | StepOut.next s => some s.stack_pointer
  | StepOut.halt s => some s.stack_pointer
  | StepOut.panic _ => none

/-- Memory cell of a step outcome, when the step did not panic. -/
def outMem : StepOut → Nat → Option Nat
  | StepOut.next s, a => some (s.memory a)
  | StepOut.halt s, a => some (s.memory a)
  | StepOut.panic _, _ => none

/-- Memory image holding the two-byte program 90 05 (BCC +5) at
0x8000. -/
def bccMem : Nat → Nat := fun a =>
  if a = 0x8000 then 0x90 else if a = 0x8001 then 0x05 else 0

/-- CPU about to execute BCC +5 at 0x8000 with the carry flag clear. -/
def bccCPU : CPU := ⟨0, 0, 0, 0, 0x8000, 0xfd, bccMem⟩

/-- Memory image holding JSR 0x8005 at 0x8000 and RTS at 0x8005. -/
def jsrMem : Nat → Nat := fun a =>
  if a = 0x8000 then 0x20 else if a = 0x8001 then 0x05 else
  if a = 0x8002 then 0x80 else if a = 0x8005 then 0x60 else 0

/-- CPU about to execute JSR 0x8005 from 0x8000. -/
def jsrCPU : CPU := ⟨0, 0, 0, 0, 0x8000, 0xfd, jsrMem⟩

/-- Memory image holding ADC #$FF at 0x8000. -/
def adcMem : Nat → Nat := fun a =>
  if a = 0x8000 then 0x69 else if a = 0x8001 then 0xff else 0

/-- CPU with A = 0 and the carry flag set, about to execute ADC #$FF. -/
def adcCPU : CPU := ⟨0, 0, 0, 1, 0x8000, 0xfd, adcMem⟩

/-- CPU about to fetch the undispatched opcode byte 0x01. -/
def unkCPU : CPU := ⟨0, 0, 0, 0, 0x8000, 0xfd, fun a => if a = 0x8000 then 0x01 else 0⟩

/-- CPU about to fetch the undispatched opcode byte 0xFF. -/
def unkCPU2 : CPU := ⟨0, 0, 0, 0, 0x8000, 0xfd, fun a => if a = 0x8000 then 0xff else 0⟩

/-- CPU whose PC points at an operand byte 0x05, for the SBC witness. -/
def sbcCPU : CPU := ⟨7, 0, 0, 0, 0x8001, 0xfd, fun a => if a = 0x8001 then 0x05 else 0⟩

/-- CPU with A = 5 over zeroed memory, for stack witnesses. -/
def plainCPU : CPU := ⟨5, 0, 0, 0, 0x8000, 0xfd, fun _ => 0⟩

/-! Helper lemmas shared by the claim proofs. -/

@[simp]
theorem bind_ok_m {α β : Type} (a : α) (f : α → M β) :
    (Except.ok a >>= f : M β) = f a := rfl

@[simp]
theorem bind_error_m {α β : Type} (k : PanicKind) (f : α → M β) :
    (Except.error k >>= f : M β) = Except.error k := rfl

@[simp]
theorem map_ok_m {α β : Type} (f : α → β) (a : α) :
    (Except.ok a : M α).map f = Except.ok (f a) := rfl

@[simp]
theorem setZeroFlag_register_a (s : CPU) (r : Nat) :
    (setZeroFlag s r).register_a = s.register_a := by
  unfold setZeroFlag; split <;> rfl

@[simp]
theorem setZeroFlag_stack_pointer (s : CPU) (r : Nat) :
    (setZeroFlag s r).stack_pointer = s.stack_pointer := by
  unfold setZeroFlag; split <;> rfl

@[simp]
theorem setZeroFlag_memory (s : CPU) (r : Nat) :
    (setZeroFlag s r).memory = s.memory := by
  unfold setZeroFlag; split <;> rfl

@[simp]
theorem setNegativeFlag_register_a (s : CPU) (r : Nat) :
    (setNegativeFlag s r).register_a = s.register_a := by
  unfold setNegativeFlag; split <;> rfl

@[simp]
theorem setNegativeFlag_stack_pointer (s : CPU) (r : Nat) :
    (setNegativeFlag s r).stack_pointer = s.stack_pointer := by
  unfold setNegativeFlag; split <;> rfl

@[simp]
theorem setNegativeFlag_memory (s : CPU) (r : Nat) :
    (setNegativeFlag s r).memory = s.memory := by
  unfold setNegativeFlag; split <;> rfl

@[simp]
theorem uznf_register_a (s : CPU) (r : Nat) :
    (updateZeroAndNegativeFlags s r).register_a = s.register_a := by
  unfold updateZeroAndNegativeFlags; simp

@[simp]
theorem uznf_stack_pointer (s : CPU) (r : Nat) :
    (updateZeroAndNegativeFlags s r).stack_pointer = s.stack_pointer := by
  unfold updateZeroAndNegativeFlags; simp

@[simp]
theorem uznf_memory (s : CPU) (r : Nat) :
    (updateZeroAndNegativeFlags s r).memory = s.memory := by
  unfold updateZeroAndNegativeFlags; simp

@[simp]
theorem setRegisterA_register_a (s : CPU) (v : Nat) :
    (setRegisterA s v).register_a = v := by
  unfold setRegisterA; simp

@[simp]
theorem setRegisterA_stack_pointer (s : CPU) (v : Nat) :
    (setRegisterA s v).stack_pointer = s.stack_pointer := by
  unfold setRegisterA; simp

/-! The claims. -/

/-- C1.  The spec says the run loop advances PC by (length - 1) only
when the semantic routine did not itself overwrite PC, so that a taken
branch ends exactly at the Relative-mode effective address.  In the
source the advance is unconditional: with the carry flag clear and the
program 90 05 (BCC +5) at 0x8000, the Relative decoder yields the
target 0x8007, but after the step PC is 0x8008 — one past the
target. -/
theorem taken_branch_pc_off_by_one :
    getOperandAddress { bccCPU with program_counter := 0x8001 }
      AddressingMode.Relative = Except.ok 0x8007 ∧
    outPC (step bccCPU) = some 0x8008 :=
  And.intro rfl rfl

/-- C2.  The spec claims a fully populated 65,536-byte memory in which
no access can fail, but the source array is [u8; 0xffff] — 65,535
cells.  Reads at 0x0000..0xFFFE return the stored byte, and a read at
0xFFFF panics with an index-out-of-bounds error. -/
theorem mem_read_fails_at_top_address (s : CPU) :
    memRead s 0xfffe = Except.ok (s.memory 0xfffe) ∧
    memRead s 0xffff = Except.error PanicKind.indexOutOfBounds :=
  And.intro rfl rfl

/-- C3.  The spec claims ADC computes a + b + C with carry-out and no
panic for any input, including b = 0xFF with C = 1.  The source
computes value + carry with a plain u8 +, which overflows exactly
there: with A = 0, carry set, and operand 0xFF, the helper (and the
whole ADC step) panics instead of producing result 0 with carry
out. -/
theorem adc_overflow_input_panics :
    addToRegisterA adcCPU 0xff = Except.error PanicKind.addOverflow ∧
    step adcCPU = StepOut.panic PanicKind.addOverflow :=
  And.intro rfl rfl

/-- C4.  JSR at 0x8000 with target T = 0x8005 does push 0x8002
(= base + 2, bytes 0x80 at 0x01FD and 0x02 at 0x01FC, SP ending at
0xFB), but the unconditional += 2 after the jsr routine leaves PC at
0x8007 = T + 2, so the next instruction fetched is not the byte at
T. -/
theorem jsr_lands_past_target :
    outPC (step jsrCPU) = some 0x8007 ∧
    outMem (step jsrCPU) 0x1fd = some 0x80 ∧
    outMem (step jsrCPU) 0x1fc = some 0x02 ∧
    outSP (step jsrCPU) = some 0xfb :=
  ⟨rfl, rfl, rfl, rfl⟩

/-- C5 counterexample.  Running a program whose first opcode byte
(0x01) has no dispatch arm does not produce a reportable UnknownOpcode
error value: the run loop hits the todo! default arm and panics. -/
theorem unknown_opcode_run_hits_todo :
    runW 2 unkCPU = RunOut.panic PanicKind.todoUnimplemented := rfl

/-- C5 amended.  For every opcode byte with no arm in the dispatch
table of run, the step aborts with the todo! panic — an outcome
distinct from normal BRK termination — rather than continuing or
returning an error value. -/
theorem unknown_opcode_todo (s : CPU) (op : Nat)
    (hop : memRead s s.program_counter = Except.ok op)
    (hnot : op ∉ opHandlers.map Prod.fst) :
    step s = StepOut.panic PanicKind.todoUnimplemented := by
  have hpc : s.program_counter < 0xffff := by
    by_contra hc
    simp [memRead, hc] at hop
  have hadd : addU16 s.program_counter 1 = Except.ok (s.program_counter + 1) := by
    unfold addU16
    rw [if_pos (by omega)]
  have hfind : opHandlers.find? (fun p => p.1 == op) = none := by
    rw [List.find?_eq_none]
    intro p hp hbeq
    apply hnot
    have hpeq : p.1 = op := by simpa using hbeq
    exact hpeq ▸ List.mem_map_of_mem Prod.fst hp
  unfold step
  rw [hop, hadd]
  simp only [hfind]

/-- C5 witness: the amended theorem applied at the concrete opcode
0xFF. -/
theorem unknown_opcode_todo_witness :
    step unkCPU2 = StepOut.panic PanicKind.todoUnimplemented :=
  unknown_opcode_todo unkCPU2 0xff rfl (by decide)

/-- C6.  SBC is ADC of the one's complement: whenever the addressing
mode decodes to addr and the memory operand there is the byte v,
executing sbc is exactly invoking the shared add-with-carry helper on
255 - v (the one's complement of v). -/
theorem sbc_is_adc_of_complement (s : CPU) (mode : AddressingMode)
    (addr v : Nat) (haddr : getOperandAddress s mode = Except.ok addr)
    (hval : memRead s addr = Except.ok v) (hv : v < 256) :
    sbc s mode = addToRegisterA s (255 - v) := by
  have hc : ((256 - v % 256) % 256 + 255) % 256 = 255 - v := by omega
  unfold sbc
  rw [haddr]
  simp only [bind_ok_m]
  rw [hval]
  simp only [bind_ok_m, hc]

/-- C6 witness: SBC of the operand byte 5 at the PC of sbcCPU equals
the add-with-carry helper on 250. -/
theorem sbc_is_adc_of_complement_witness :
    sbc sbcCPU AddressingMode.Immediate = addToRegisterA sbcCPU 250 :=
  sbc_is_adc_of_complement sbcCPU AddressingMode.Immediate 0x8001 5
    rfl rfl (by decide)

/-- C7.  For every state with a byte-valued stack pointer, PHA
followed by PLA restores A to its original value and SP to its
original value. -/
theorem pha_pla_roundtrip (s : CPU) (h : s.stack_pointer < 256) :
    (pha s AddressingMode.Implied >>= fun s₁ =>
      pla s₁ AddressingMode.Implied).map
      (fun s₂ => (s₂.register_a, s₂.stack_pointer)) =
    Except.ok (s.register_a, s.stack_pointer) := by
  have h1 : 0x100 + s.stack_pointer < 0xffff := by omega
  have hsp : ((s.stack_pointer + 255) % 256 + 1) % 256 = s.stack_pointer := by
    omega
  have hpush : pha s AddressingMode.Implied = Except.ok
      { s with memory := (fun a => if a = 0x100 + s.stack_pointer
                  then s.register_a else s.memory a),
               stack_pointer := (s.stack_pointer + 255) % 256 } := by
    simp only [pha, stackPush, memWrite]
    rw [if_pos h1]
    rfl
  rw [hpush]
  simp only [bind_ok_m, pla, stackPop, memRead]
  simp only [hsp]
  rw [if_pos h1]
  simp

/-- C7 witness: the round trip at the concrete state plainCPU. -/
theorem pha_pla_roundtrip_witness :
    (pha plainCPU AddressingMode.Implied >>= fun s₁ =>
      pla s₁ AddressingMode.Implied).map
      (fun s₂ => (s₂.register_a, s₂.stack_pointer)) =
    Except.ok (5, 0xfd) :=
  pha_pla_roundtrip plainCPU (by decide)

/-- C8.  For every byte-valued SP, stack_push writes exactly at
0x0100 + SP (an address inside page 1, 0x0100..0x01FF) and then
decrements SP mod 256, and stack_pop increments SP mod 256 and then
reads exactly 0x0100 + new SP (also inside page 1); neither touches
any other memory cell, and SP stays a valid 8-bit value. -/
theorem stack_ops_stay_in_page_one (s : CPU) (d : Nat)
    (h : s.stack_pointer < 256) :
    stackPush s d = Except.ok
      { s with memory := (fun a => if a = 0x100 + s.stack_pointer
                  then d else s.memory a),
               stack_pointer := (s.stack_pointer + 255) % 256 } ∧
    0x100 ≤ 0x100 + s.stack_pointer ∧
    0x100 + s.stack_pointer ≤ 0x1ff ∧
    (s.stack_pointer + 255) % 256 < 256 ∧
    stackPop s = Except.ok (s.memory (0x100 + (s.stack_pointer + 1) % 256),
      { s with stack_pointer := (s.stack_pointer + 1) % 256 }) ∧
    0x100 ≤ 0x100 + (s.stack_pointer + 1) % 256 ∧
    0x100 + (s.stack_pointer + 1) % 256 ≤ 0x1ff ∧
    (s.stack_pointer + 1) % 256 < 256 := by
  have h1 : 0x100 + s.stack_pointer < 0xffff := by omega
  have h2 : 0x100 + (s.stack_pointer + 1) % 256 < 0xffff := by omega
  refine ⟨?_, by omega, by omega, by omega, ?_, by omega, by omega, by omega⟩
  · simp only [stackPush, memWrite]
    rw [if_pos h1]
    rfl
  · simp only [stackPop, memRead]
    rw [if_pos h2]
    rfl

/-- C8 witness: page-1 bounds of the push and pop addresses at the
concrete state plainCPU. -/
theorem stack_ops_stay_in_page_one_witness :
    0x100 + plainCPU.stack_pointer ≤ 0x1ff ∧
    (plainCPU.stack_pointer + 255) % 256 < 256 :=
  And.intro
    (stack_ops_stay_in_page_one plainCPU 9 (by decide)).2.2.1
    (stack_ops_stay_in_page_one plainCPU 9 (by decide)).2.2.2.1

/-- C9.  reset zeroes A, X, Y and the status byte, loads PC from the
little-endian word at 0xFFFC/0xFFFD, and leaves SP and the whole
memory unchanged. -/
theorem reset_spec (s : CPU) :
    reset s = Except.ok
      ⟨0, 0, 0, 0, (s.memory 0xfffd <<< 8) ||| s.memory 0xfffc,
        s.stack_pointer, s.memory⟩ := rfl

/-- C10.  load always copies the program to base 0x8000: when the
program has at most 0x7FFF bytes the copy lands at
0x8000..0x8000+len and 0x8000 is written little-endian to the reset
vector at 0xFFFC/0xFFFD; a longer program makes the slice copy exceed
the 0xffff-cell memory array and panic. -/
theorem load_uses_fixed_base (s : CPU) (program : List Nat) :
    (program.length ≤ 0x7fff →
      load s program = Except.ok { s with memory := (fun a =>
        if a = 0xfffd then 0x80
        else if a = 0xfffc then 0
        else if 0x8000 ≤ a ∧ a < 0x8000 + program.length then
          program.getD (a - 0x8000) 0
        else s.memory a) }) ∧
    (0x7fff < program.length →
      load s program = Except.error PanicKind.indexOutOfBounds) := by
  constructor
  · intro h
    have h1 : 0x8000 + program.length ≤ 0xffff := by omega
    simp only [load]
    rw [if_pos h1]
    rfl
  · intro h
    have h1 : ¬ 0x8000 + program.length ≤ 0xffff := by omega
    simp only [load]
    rw [if_neg h1]
    rfl

/-- C10 witness: a one-byte program lands at 0x8000 with the reset
vector set, and a 0x8000-byte program panics. -/
theorem load_uses_fixed_base_witness :
    (load plainCPU [0xa9]).map
      (fun s => (s.memory 0x8000, s.memory 0xfffc, s.memory 0xfffd)) =
      Except.ok (0xa9, 0, 0x80) ∧
    load plainCPU (List.replicate 0x8000 0) =
      Except.error PanicKind.indexOutOfBounds := by
  constructor
  · rw [(load_uses_fixed_base plainCPU [0xa9]).1 (by decide)]
    rfl
  · exact (load_uses_fixed_base plainCPU (List.replicate 0x8000 0)).2
      (by rw [List.length_replicate]; omega)

end Nes
